import Mathlib

/-
Verification of the autonomous GPU cluster simulator.

The development shallowly embeds the controller's data model and the
operations relevant to its scheduling, retry, recovery, registry and
HTTP-rate behaviour.  Python dictionaries (`self.workers`, `self.jobs`)
become insertion-ordered association lists; `datetime` values become
abstract `Nat` timestamps; `float` rates become `Rat`; every stochastic
choice (random worker pick, random id words) becomes an explicit numeric
parameter.  Python mutates `Job` objects shared between the `jobs` dict,
the queue, and a worker's `current_job` slot; the embedding stores job
values and mirrors every in-place mutation into the `jobs` map at the
job's id, which coincides with the reference semantics whenever ids are
unique keys.
-/

set_option maxRecDepth 4000

/-- Job status enumeration (job_types.py, class JobStatus). -/
inductive JobStatus
  | pending
  | running
  | completed
  | failed
  | cancelled
deriving DecidableEq, Repr

/-- Job priority enumeration (job_types.py, class JobPriority). -/
inductive JobPriority
  | low
  | normal
  | high
  | critical
deriving DecidableEq, Repr

/-- The numeric value of a priority (LOW=1, NORMAL=2, HIGH=3, CRITICAL=4). -/
def JobPriority.value : JobPriority → Nat
  | .low => 1
  | .normal => 2
  | .high => 3
  | .critical => 4

/-- Lower-cased enum member name, as used by priority.name.lower() when
building job ids. -/
def JobPriority.pyName : JobPriority → String
  | .low => "low"
  | .normal => "normal"
  | .high => "high"
  | .critical => "critical"

/-- Job data structure (job_types.py, dataclass Job).  Timestamps are Nat,
parameter values are Rat. -/
structure Job where
  job_id : String
  job_type : String
  priority : JobPriority
  status : JobStatus
  created_at : Nat
  started_at : Option Nat := none
  completed_at : Option Nat := none
  worker_id : Option String := none
  parameters : List (String × Rat) := []
  result : Option String := none
  error_message : Option String := none
  retry_count : Nat := 0
  max_retries : Nat := 3
deriving DecidableEq, Repr

/-- Worker node information (autonomous_simulator.py, dataclass WorkerInfo).
The `current_job` slot holds the job value itself, as the Python object
reference does. -/
structure WorkerInfo where
  worker_id : String
  status : String
  current_job : Option Job := none
  last_heartbeat : Nat := 0
  failure_probability : Rat := 0
  recovery_time : Nat := 30
deriving DecidableEq, Repr

/-- WorkerInfo.is_available: status == "online" and current_job is None. -/
def WorkerInfo.is_available (w : WorkerInfo) : Bool :=
  w.status == "online" && w.current_job.isNone

/-- The stats record of AutonomousClusterSimulator.__init__. -/
structure Stats where
  total_jobs : Nat := 0
  completed_jobs : Nat := 0
  failed_jobs : Nat := 0
  worker_failures : Nat := 0
  worker_recoveries : Nat := 0
  active_workers : Int := 0
  simulation_start : Nat := 0
deriving DecidableEq, Repr

/-- The mutable cluster state of AutonomousClusterSimulator: the workers
dict, the jobs dict, the pending queue and the configuration knobs. -/
structure ClusterState where
  workers : List (String × WorkerInfo) := []
  jobs : List (String × Job) := []
  job_queue : List Job := []
  job_generation_rate : Rat := 2
  failure_rate : Rat := 1/10
  recovery_time : Nat := 30
  stats : Stats := {}
deriving DecidableEq, Repr

/-- Lookup in an insertion-ordered association list: dict subscript /
`in` test. -/
def alistLookup {α : Type} (k : String) : List (String × α) → Option α
  | [] => none
  | (k', v) :: rest => if k' = k then some v else alistLookup k rest

/-- Insert-or-replace in an insertion-ordered association list: dict
assignment `d[k] = v` (replacing keeps the key's position, adding appends,
exactly as Python dicts do). -/
def alistInsert {α : Type} (k : String) (v : α) : List (String × α) → List (String × α)
  | [] => [(k, v)]
  | (k', v') :: rest => if k' = k then (k, v) :: rest else (k', v') :: alistInsert k v rest

theorem alistLookup_insert_self {α : Type} (k : String) (v : α) (l : List (String × α)) :
    alistLookup k (alistInsert k v l) = some v := by
  induction l with
  | nil => simp [alistInsert, alistLookup]
  | cons p rest ih =>
    by_cases h : p.1 = k
    · simp [alistInsert, alistLookup, h]
    · simp [alistInsert, alistLookup, h, ih]

theorem alistLookup_insert_ne {α : Type} (k k' : String) (v : α) (l : List (String × α))
    (h : k' ≠ k) : alistLookup k' (alistInsert k v l) = alistLookup k' l := by
  induction l with
  | nil => simp [alistInsert, alistLookup, Ne.symm h]
  | cons p rest ih =>
    by_cases hp : p.1 = k
    · subst hp
      simp [alistInsert, alistLookup, Ne.symm h]
    · simp [alistInsert, alistLookup, hp, ih]

theorem mem_alistInsert {α : Type} (k : String) (v : α) (l : List (String × α))
    (p : String × α) : p ∈ alistInsert k v l → p = (k, v) ∨ p ∈ l := by
  induction l with
  | nil =>
    intro hp
    simpa [alistInsert] using hp
  | cons q rest ih =>
    intro hp
    by_cases h : q.1 = k
    · simp only [alistInsert, if_pos h, List.mem_cons] at hp
      rcases hp with hp | hp
      · exact Or.inl hp
      · exact Or.inr (List.mem_cons_of_mem _ hp)
    · simp only [alistInsert, if_neg h, List.mem_cons] at hp
      rcases hp with hp | hp
      · exact Or.inr (hp ▸ List.mem_cons_self _ _)
      · rcases ih hp with hh | hh
        · exact Or.inl hh
        · exact Or.inr (List.mem_cons_of_mem _ hh)

theorem alistInsert_length_of_none {α : Type} (k : String) (v : α) (l : List (String × α))
    (h : alistLookup k l = none) : (alistInsert k v l).length = l.length + 1 := by
  induction l with
  | nil => simp [alistInsert]
  | cons p rest ih =>
    by_cases hp : p.1 = k
    · simp [alistLookup, hp] at h
    · simp only [alistLookup, if_neg hp] at h
      simp [alistInsert, hp, ih h]

theorem alistInsert_length_of_some {α : Type} (k : String) (v x : α) (l : List (String × α))
    (h : alistLookup k l = some x) : (alistInsert k v l).length = l.length := by
  induction l with
  | nil => simp [alistLookup] at h
  | cons p rest ih =>
    by_cases hp : p.1 = k
    · simp [alistInsert, hp]
    · simp only [alistLookup, if_neg hp] at h
      simp [alistInsert, hp, ih h]


/-- The job updated in place by _simulate_worker_failure before the retry
check: status PENDING, worker_id None, started_at None, retry_count
incremented. -/
def requeuedJob (j : Job) : Job :=
  { j with
    status := JobStatus.pending
    worker_id := none
    started_at := none
    retry_count := j.retry_count + 1 }

/-- The job after the retry-exhaustion branch of _simulate_worker_failure:
status FAILED with the fixed error message (note: completed_at is not
touched on this path). -/
def exhaustedJob (j : Job) : Job :=
  { requeuedJob j with
    status := JobStatus.failed
    error_message := some "Max retries exceeded due to worker failures" }

/-- AutonomousClusterSimulator._simulate_worker_failure.  Looking up a
missing worker id raises KeyError in the source, modelled as `none`.
In-place mutations of the shared Job object are mirrored into the jobs
map at the job's id. -/
def simulate_worker_failure (s : ClusterState) (wid : String) : Option ClusterState :=
  match alistLookup wid s.workers with
  | none => none
  | some worker =>
    let stats1 : Stats :=
      { s.stats with
        worker_failures := s.stats.worker_failures + 1
        active_workers := s.stats.active_workers - 1 }
    match worker.current_job with
    | none =>
      some { s with
        workers := alistInsert wid { worker with status := "failed" } s.workers
        stats := stats1 }
    | some job =>
      if (requeuedJob job).retry_count ≤ (requeuedJob job).max_retries then
        some { s with
          jobs := alistInsert (requeuedJob job).job_id (requeuedJob job) s.jobs
          job_queue := s.job_queue ++ [requeuedJob job]
          workers := alistInsert wid
            { worker with status := "failed", current_job := none } s.workers
          stats := stats1 }
      else
        some { s with
          jobs := alistInsert (exhaustedJob job).job_id (exhaustedJob job) s.jobs
          workers := alistInsert wid
            { worker with status := "failed", current_job := none } s.workers
          stats := { stats1 with failed_jobs := stats1.failed_jobs + 1 } }

/-- AutonomousClusterSimulator._recover_worker (the body under the lock,
after the recovery sleep): guarded only by membership of the worker id,
not by the FAILED status. -/
def recover_worker (s : ClusterState) (wid : String) (now : Nat) : ClusterState :=
  match alistLookup wid s.workers with
  | none => s
  | some worker =>
    { s with
      workers := alistInsert wid
        { worker with status := "online", last_heartbeat := now } s.workers
      stats := { s.stats with
        worker_recoveries := s.stats.worker_recoveries + 1
        active_workers := s.stats.active_workers + 1 } }

/-- Stable insertion of a job into a descending-priority list: the job is
placed before the first element whose priority value is ≤ its own, so an
element it originally preceded never ends up in front of it on a tie. -/
def insertJobDesc (j : Job) : List Job → List Job
  | [] => [j]
  | k :: rest =>
    if k.priority.value ≤ j.priority.value then j :: k :: rest
    else k :: insertJobDesc j rest

/-- The scheduler's in-place sort with key job.priority.value and
reverse=True: a stable descending sort by priority value (Python's sort
is stable and reverse=True does not reorder equal keys). -/
def sortJobsByPriorityDesc : List Job → List Job
  | [] => []
  | j :: rest => insertJobDesc j (sortJobsByPriorityDesc rest)

/-- The available_workers list comprehension of _job_scheduler. -/
def availableWorkers (s : ClusterState) : List WorkerInfo :=
  (s.workers.map Prod.snd).filter fun w => w.is_available

/-- The random.choice(available_workers) of _job_scheduler, with the
random draw made explicit as an index `pick` reduced modulo the number of
available workers; `none` when no worker is available. -/
def chosenWorker (s : ClusterState) (pick : Nat) : Option WorkerInfo :=
  match availableWorkers s with
  | [] => none
  | w0 :: ws => some ((w0 :: ws).getD (pick % (w0 :: ws).length) w0)

/-- The job as assigned by _job_scheduler: status RUNNING, started_at now,
worker_id set to the chosen worker's id. -/
def assignedJob (j : Job) (w : WorkerInfo) (now : Nat) : Job :=
  { j with
    status := JobStatus.running
    started_at := some now
    worker_id := some w.worker_id }

/-- One iteration of the _job_scheduler loop body (the critical section):
if the queue is non-empty it is sorted in place; if additionally a worker
is available, the head job is popped and assigned to a randomly chosen
available worker.  At most one job is dispatched per tick. -/
def scheduler_tick (s : ClusterState) (pick now : Nat) : ClusterState :=
  if s.job_queue.isEmpty then s
  else
    match sortJobsByPriorityDesc s.job_queue, chosenWorker s pick with
    | [], _ => s
    | j :: rest, none => { s with job_queue := j :: rest }
    | j :: rest, some w =>
      { s with
        job_queue := rest
        jobs := alistInsert (assignedJob j w now).job_id (assignedJob j w now) s.jobs
        workers := alistInsert w.worker_id
          { w with current_job := some (assignedJob j w now), status := "busy" }
          s.workers }

/-- The word tables of utils.generate_job_id keyed by job type (the
source's per-type word lists, with dict.get defaulting to ["job"]). -/
def idTypeWords (job_type : String) : List String :=
  if job_type = "sleep" then ["io", "wait", "idle", "pause", "delay"]
  else if job_type = "compute" then ["calc", "process", "analyze", "compute", "run"]
  else if job_type = "matrix" then ["matrix", "gpu", "tensor", "linear", "algebra"]
  else if job_type = "fault_injection" then
    ["test", "check", "verify", "validate", "inject"]
  else ["job"]

/-- The word tables of utils.generate_job_id keyed by lower-cased priority
name (dict.get defaulting to ["normal"]). -/
def idPriorityWords (priority : String) : List String :=
  if priority = "low" then ["batch", "background", "low-priority"]
  else if priority = "normal" then ["standard", "regular", "normal"]
  else if priority = "high" then ["urgent", "priority", "important"]
  else if priority = "critical" then ["critical", "emergency", "immediate"]
  else ["normal"]

/-- utils.generate_job_id with the three random draws made explicit:
`pickA`/`pickB` index the word tables (random.choice) and `number`
parameterizes random.randint(1000, 9999).  The id space is finite and no
uniqueness check against existing ids is performed. -/
def generate_job_id (job_type priority : String) (pickA pickB number : Nat) : String :=
  let wordsA := idTypeWords job_type
  let wordsB := idPriorityWords priority
  let wa := wordsA.getD (pickA % wordsA.length) "job"
  let wb := wordsB.getD (pickB % wordsB.length) "normal"
  let n := 1000 + number % 9000
  if job_type = "matrix" then "gpu-" ++ wa ++ "-" ++ toString n
  else if job_type = "fault_injection" then wa ++ "-test-" ++ toString n
  else wa ++ "-" ++ wb ++ "-" ++ toString n

/-- job_types.create_job: a fresh PENDING job with a generated id. -/
def create_job (job_type : String) (priority : JobPriority)
    (pickA pickB number : Nat) (now : Nat) (parameters : List (String × Rat)) : Job :=
  { job_id := generate_job_id job_type priority.pyName pickA pickB number
    job_type := job_type
    priority := priority
    status := JobStatus.pending
    created_at := now
    parameters := parameters }

/-- The locked section of one _job_generator emission: insert the job into
the jobs dict (dict assignment overwrites on a key collision), append it
to the queue, increment stats.total_jobs. -/
def emit_job (s : ClusterState) (job : Job) : ClusterState :=
  { s with
    jobs := alistInsert job.job_id job s.jobs
    job_queue := s.job_queue ++ [job]
    stats := { s.stats with total_jobs := s.stats.total_jobs + 1 } }

/-- The four executor classes of job_types.py, in the registration order of
_register_default_executors. -/
inductive ExecutorKind
  | sleepExec
  | computeExec
  | matrixExec
  | faultInjectionExec
deriving DecidableEq, Repr

/-- Each executor's can_execute: exact string equality of job.job_type
against the executor's type tag. -/
def ExecutorKind.can_execute : ExecutorKind → Job → Bool
  | .sleepExec, job => job.job_type == "sleep"
  | .computeExec, job => job.job_type == "compute"
  | .matrixExec, job => job.job_type == "matrix"
  | .faultInjectionExec, job => job.job_type == "fault_injection"

/-- The registry's executor list after _register_default_executors:
Sleep, Compute, Matrix, FaultInjection, in that order. -/
def defaultExecutors : List ExecutorKind :=
  [.sleepExec, .computeExec, .matrixExec, .faultInjectionExec]

/-- JobExecutorRegistry.get_executor: linear scan over the registered
executors, first match wins, None when no executor claims the job. -/
def get_executor (regs : List ExecutorKind) (job : Job) : Option ExecutorKind :=
  regs.find? fun e => e.can_execute job

/-- JobExecutorRegistry.execute_job.  The executor bodies perform blocking
or random work, so their outcome is abstracted as `body`; the registry
itself raises ValueError with the fixed message when no executor is
found. -/
def execute_job (body : ExecutorKind → Job → Except String String) (job : Job) :
    Except String String :=
  match get_executor defaultExecutors job with
  | none => Except.error ("No executor found for job type: " ++ job.job_type)
  | some e => body e job

/-- The job completed by _job_executor's success branch. -/
def completedJob (j : Job) (res : String) (now : Nat) : Job :=
  { j with
    status := JobStatus.completed
    completed_at := some now
    result := some res }

/-- The job failed by _job_executor's exception branch. -/
def failedJob (j : Job) (msg : String) (now : Nat) : Job :=
  { j with
    status := JobStatus.failed
    completed_at := some now
    error_message := some msg }

/-- The _job_executor loop body restricted to one worker `wid`: if the
worker holds a RUNNING job, execute it through the registry, mark the job
COMPLETED or FAILED with completed_at = now, bump the matching counter,
clear the worker and put it back online; otherwise no change. -/
def executor_tick_worker (body : ExecutorKind → Job → Except String String)
    (s : ClusterState) (wid : String) (now : Nat) : ClusterState :=
  match alistLookup wid s.workers with
  | none => s
  | some worker =>
    match worker.current_job with
    | none => s
    | some job =>
      if job.status = JobStatus.running then
        match execute_job body job with
        | Except.ok res =>
          { s with
            jobs := alistInsert job.job_id (completedJob job res now) s.jobs
            workers := alistInsert wid
              { worker with current_job := none, status := "online" } s.workers
            stats := { s.stats with completed_jobs := s.stats.completed_jobs + 1 } }
        | Except.error msg =>
          { s with
            jobs := alistInsert job.job_id (failedJob job msg now) s.jobs
            workers := alistInsert wid
              { worker with current_job := none, status := "online" } s.workers
            stats := { s.stats with failed_jobs := s.stats.failed_jobs + 1 } }
      else s

/-- The "rate" value carried by a POST /api/update-job-rate body: either a
JSON number, or a string that Python's float() rejects (such as "abc"). -/
inductive RateValue
  | num (q : Rat)
  | nonNumericStr (s : String)
deriving DecidableEq, Repr

/-- Python float() applied to the rate value: numbers convert, a
non-numeric string raises ValueError (modelled as none). -/
def pyFloat : RateValue → Option Rat
  | .num q => some q
  | .nonNumericStr _ => none

/-- The JSON response of the update_job_rate Flask handler, together with
its HTTP status code. -/
structure RateResponse where
  httpStatus : Nat
  success : Bool
  new_rate : Option Rat
deriving DecidableEq, Repr

/-- The update_job_rate Flask handler.  `body` is `none` when the request
body is not a JSON object (request.get_json or the attribute access
raises), `some none` when the object parses but has no "rate" key
(data.get defaults to 2.0), and `some (some v)` when a rate value is
present.  A numeric rate is clamped into [0.1, 50.0] and applied via
set_job_generation_rate; any exception yields HTTP 400 with success false
and leaves the rate unchanged. -/
def update_job_rate (s : ClusterState) (body : Option (Option RateValue)) :
    ClusterState × RateResponse :=
  match body with
  | none => (s, { httpStatus := 400, success := false, new_rate := none })
  | some rateField =>
    match pyFloat (rateField.getD (RateValue.num 2)) with
    | none => (s, { httpStatus := 400, success := false, new_rate := none })
    | some r =>
      let new_rate := if r < (1 : Rat)/10 then (1 : Rat)/10
                      else if r > 50 then 50 else r
      ({ s with job_generation_rate := new_rate },
       { httpStatus := 200, success := true, new_rate := some new_rate })

theorem mem_insertJobDesc (j : Job) (l : List Job) (x : Job) :
    x ∈ insertJobDesc j l → x = j ∨ x ∈ l := by
  induction l with
  | nil =>
    intro hx
    simpa [insertJobDesc] using hx
  | cons k rest ih =>
    intro hx
    by_cases h : k.priority.value ≤ j.priority.value
    · simp only [insertJobDesc, if_pos h, List.mem_cons] at hx
      rcases hx with hx | hx | hx
      · exact Or.inl hx
      · exact Or.inr (hx ▸ List.mem_cons_self _ _)
      · exact Or.inr (List.mem_cons_of_mem _ hx)
    · simp only [insertJobDesc, if_neg h, List.mem_cons] at hx
      rcases hx with hx | hx
      · exact Or.inr (hx ▸ List.mem_cons_self _ _)
      · rcases ih hx with hh | hh
        · exact Or.inl hh
        · exact Or.inr (List.mem_cons_of_mem _ hh)

theorem insertJobDesc_perm (j : Job) (l : List Job) :
    List.Perm (insertJobDesc j l) (j :: l) := by
  induction l with
  | nil => simp [insertJobDesc]
  | cons k rest ih =>
    by_cases h : k.priority.value ≤ j.priority.value
    · simp [insertJobDesc, h]
    · simp only [insertJobDesc, if_neg h]
      exact (List.Perm.cons k ih).trans (List.Perm.swap j k rest)

theorem sortJobs_perm (l : List Job) :
    List.Perm (sortJobsByPriorityDesc l) l := by
  induction l with
  | nil => simp [sortJobsByPriorityDesc]
  | cons j rest ih =>
    exact (insertJobDesc_perm j _).trans (List.Perm.cons j ih)

theorem sortJobs_length (l : List Job) :
    (sortJobsByPriorityDesc l).length = l.length :=
  (sortJobs_perm l).length_eq

theorem insertJobDesc_pairwise (j : Job) (l : List Job)
    (hl : l.Pairwise fun a b => b.priority.value ≤ a.priority.value) :
    (insertJobDesc j l).Pairwise fun a b => b.priority.value ≤ a.priority.value := by
  induction l with
  | nil => simp [insertJobDesc]
  | cons k rest ih =>
    rcases List.pairwise_cons.mp hl with ⟨hk, hrest⟩
    by_cases h : k.priority.value ≤ j.priority.value
    · simp only [insertJobDesc, if_pos h]
      refine List.pairwise_cons.mpr ⟨?_, hl⟩
      intro x hx
      rcases List.mem_cons.mp hx with hx | hx
      · exact hx ▸ h
      · exact le_trans (hk x hx) h
    · simp only [insertJobDesc, if_neg h]
      refine List.pairwise_cons.mpr ⟨?_, ih hrest⟩
      intro x hx
      rcases mem_insertJobDesc j rest x hx with hx | hx
      · exact hx ▸ le_of_not_le h
      · exact hk x hx

theorem sortJobs_pairwise (l : List Job) :
    (sortJobsByPriorityDesc l).Pairwise fun a b => b.priority.value ≤ a.priority.value := by
  induction l with
  | nil => simp [sortJobsByPriorityDesc]
  | cons j rest ih => exact insertJobDesc_pairwise j _ ih

theorem insertJobDesc_filter (j : Job) (l : List Job) (v : Nat) :
    (insertJobDesc j l).filter (fun q => q.priority.value == v) =
      if j.priority.value = v then
        j :: l.filter (fun q => q.priority.value == v)
      else l.filter (fun q => q.priority.value == v) := by
  induction l with
  | nil =>
    by_cases hv : j.priority.value = v <;>
      simp [insertJobDesc, List.filter_cons, hv]
  | cons k rest ih =>
    by_cases h : k.priority.value ≤ j.priority.value
    · simp only [insertJobDesc]
      rw [if_pos h]
      by_cases hv : j.priority.value = v <;>
        simp [List.filter_cons, hv]
    · simp only [insertJobDesc]
      rw [if_neg h]
      by_cases hv : j.priority.value = v
      · have hkv : k.priority.value ≠ v := by
          intro hk
          exact h (le_of_eq (hk.trans hv.symm))
        simp [List.filter_cons, ih, hv, hkv]
      · by_cases hkv : k.priority.value = v <;>
          simp [List.filter_cons, ih, hv, hkv]

theorem sortJobs_filter_stable (l : List Job) (v : Nat) :
    (sortJobsByPriorityDesc l).filter (fun q => q.priority.value == v) =
      l.filter (fun q => q.priority.value == v) := by
  induction l with
  | nil => simp [sortJobsByPriorityDesc]
  | cons j rest ih =>
    by_cases hv : j.priority.value = v <;>
      simp [sortJobsByPriorityDesc, insertJobDesc_filter, hv, List.filter_cons, ih]

/-- An empty cluster state, as right after construction. -/
def emptyState : ClusterState := {}

/-- A freshly added online worker (add_worker). -/
def onlineWorker (wid : String) : WorkerInfo :=
  { worker_id := wid, status := "online" }

/-- A pending NORMAL-priority sleep job. -/
def jobA : Job :=
  { job_id := "j1", job_type := "sleep", priority := JobPriority.normal,
    status := JobStatus.pending, created_at := 0 }

/-- A pending HIGH-priority compute job. -/
def jobB : Job :=
  { job_id := "j2", job_type := "compute", priority := JobPriority.high,
    status := JobStatus.pending, created_at := 0 }

/-- Two free workers, two queued jobs: min(queue, available) = 2. -/
def schedCexState : ClusterState :=
  { workers := [("w1", onlineWorker "w1"), ("w2", onlineWorker "w2")]
    jobs := [("j1", jobA), ("j2", jobB)]
    job_queue := [jobA, jobB] }

/-- A RUNNING job that has already used up its retries. -/
def exhJob : Job :=
  { job_id := "jx", job_type := "sleep", priority := JobPriority.normal,
    status := JobStatus.running, created_at := 0, started_at := some 1,
    worker_id := some "w1", retry_count := 3 }

/-- The busy worker holding exhJob. -/
def exhWorker : WorkerInfo :=
  { worker_id := "w1", status := "busy", current_job := some exhJob }

/-- Cluster state in which worker w1 is busy with exhJob. -/
def exhState : ClusterState :=
  { workers := [("w1", exhWorker)], jobs := [("jx", exhJob)] }

/-- A RUNNING job on its first attempt. -/
def runJob : Job :=
  { job_id := "jr", job_type := "sleep", priority := JobPriority.normal,
    status := JobStatus.running, created_at := 0, started_at := some 1,
    worker_id := some "w1" }

/-- The busy worker holding runJob. -/
def runWorker : WorkerInfo :=
  { worker_id := "w1", status := "busy", current_job := some runJob }

/-- Cluster state in which worker w1 is busy with runJob. -/
def runState : ClusterState :=
  { workers := [("w1", runWorker)], jobs := [("jr", runJob)] }

/-- An executor-body oracle that always succeeds. -/
def okBody : ExecutorKind → Job → Except String String :=
  fun _ _ => Except.ok "done"

/-- A cluster with one failed worker awaiting recovery. -/
def failedWorkerState : ClusterState :=
  { workers := [("w1", { worker_id := "w1", status := "failed" })] }

/-- First generator emission with explicit random draws. -/
def genJobFst : Job := create_job "sleep" JobPriority.normal 0 0 234 5 []

/-- Second generator emission that happens to make the same random draws,
so the generated id collides with the first. -/
def genJobSnd : Job := create_job "sleep" JobPriority.normal 0 0 234 9 []


/-- C8: POST /api/update-job-rate clamps a numeric rate into [0.1, 50.0]
(999 yields 50.0, 0 yields 0.1, in-range values are applied unchanged)
and responds success true with the clamped new_rate; a non-numeric rate
yields HTTP 400 with success false and leaves the generation rate
unchanged. -/
theorem update_job_rate_clamp (s : ClusterState) :
    (update_job_rate s (some (some (RateValue.num 999)))).2.new_rate = some 50 ∧
    (update_job_rate s (some (some (RateValue.num 999)))).2.success = true ∧
    (update_job_rate s (some (some (RateValue.num 999)))).1.job_generation_rate = 50 ∧
    (update_job_rate s (some (some (RateValue.num 0)))).2.new_rate = some (1/10) ∧
    (update_job_rate s (some (some (RateValue.num 0)))).2.success = true ∧
    (update_job_rate s (some (some (RateValue.num 0)))).1.job_generation_rate = 1/10 ∧
    (∀ r : Rat, 1/10 ≤ r → r ≤ 50 →
      (update_job_rate s (some (some (RateValue.num r)))).2.new_rate = some r ∧
      (update_job_rate s (some (some (RateValue.num r)))).1.job_generation_rate = r) ∧
    (∀ msg : String,
      (update_job_rate s (some (some (RateValue.nonNumericStr msg)))).2.httpStatus = 400 ∧
      (update_job_rate s (some (some (RateValue.nonNumericStr msg)))).2.success = false ∧
      (update_job_rate s (some (some (RateValue.nonNumericStr msg)))).1 = s) := by
  refine ⟨?_, ?_, ?_, ?_, ?_, ?_, ?_, ?_⟩
  · norm_num [update_job_rate, pyFloat]
  · norm_num [update_job_rate, pyFloat]
  · norm_num [update_job_rate, pyFloat]
  · norm_num [update_job_rate, pyFloat]
  · norm_num [update_job_rate, pyFloat]
  · norm_num [update_job_rate, pyFloat]
  · intro r h1 h2
    have hx : ¬ r < (1 : Rat)/10 := not_lt.mpr h1
    have hy : ¬ r > (50 : Rat) := not_lt.mpr h2
    have hx2 : ¬ r < (10 : Rat)⁻¹ := by
      rw [← one_div]
      exact hx
    constructor
    · simp [update_job_rate, pyFloat, hx2, hy]
    · simp [update_job_rate, pyFloat, hx2, hy]
  · intro msg
    refine ⟨?_, ?_, ?_⟩ <;> simp [update_job_rate, pyFloat]

/-- Witness for update_job_rate_clamp: the in-range rate 7 is applied
unchanged on the empty state. -/
theorem update_job_rate_clamp_witness :
    (update_job_rate emptyState (some (some (RateValue.num 7)))).2.new_rate = some 7 := by
  have h := update_job_rate_clamp emptyState
  exact (h.2.2.2.2.2.2.1 7 (by norm_num) (by norm_num)).1

/-- C10: a parsed JSON body with no "rate" key succeeds with HTTP 200,
success true, and sets the generation rate to the default 2.0 rather than
rejecting the request or leaving the rate unchanged. -/
theorem update_job_rate_missing_key_default (s : ClusterState) :
    update_job_rate s (some none) =
      ({ s with job_generation_rate := 2 },
       { httpStatus := 200, success := true, new_rate := some 2 }) := by
  norm_num [update_job_rate, pyFloat]

theorem get_executor_can (regs : List ExecutorKind) (j : Job) (e : ExecutorKind) :
    get_executor regs j = some e → e.can_execute j = true := by
  induction regs with
  | nil =>
    intro h
    simp [get_executor, List.find?] at h
  | cons a rest ih =>
    intro h
    simp only [get_executor, List.find?] at h
    cases ha : a.can_execute j
    · rw [ha] at h
      exact ih h
    · rw [ha] at h
      simp only [Option.some.injEq] at h
      exact h ▸ ha

/-- C9: the registry resolves a job by linear scan over the executors in
registration order, returning the first whose can_execute matches the
job_type by exact string equality: each of the four default types maps to
its own executor, any resolved executor accepts the job, and execute_job
raises the no-executor ValueError exactly when the job_type is none of
"sleep", "compute", "matrix", "fault_injection". -/
theorem executor_registry_resolution (j : Job) :
    (get_executor defaultExecutors j = none ↔
      ¬ (j.job_type = "sleep" ∨ j.job_type = "compute" ∨ j.job_type = "matrix" ∨
         j.job_type = "fault_injection")) ∧
    (∀ e, get_executor defaultExecutors j = some e → e.can_execute j = true) ∧
    (j.job_type = "sleep" →
      get_executor defaultExecutors j = some ExecutorKind.sleepExec) ∧
    (j.job_type = "compute" →
      get_executor defaultExecutors j = some ExecutorKind.computeExec) ∧
    (j.job_type = "matrix" →
      get_executor defaultExecutors j = some ExecutorKind.matrixExec) ∧
    (j.job_type = "fault_injection" →
      get_executor defaultExecutors j = some ExecutorKind.faultInjectionExec) ∧
    (∀ body, get_executor defaultExecutors j = none →
      execute_job body j =
        Except.error ("No executor found for job type: " ++ j.job_type)) := by
  refine ⟨?_, fun e => get_executor_can defaultExecutors j e, ?_, ?_, ?_, ?_, ?_⟩
  · rw [get_executor, List.find?_eq_none]
    simp [defaultExecutors, ExecutorKind.can_execute]
  · intro h
    simp [get_executor, defaultExecutors, List.find?_cons, ExecutorKind.can_execute, h]
  · intro h
    simp [get_executor, defaultExecutors, List.find?_cons, ExecutorKind.can_execute, h]
  · intro h
    simp [get_executor, defaultExecutors, List.find?_cons, ExecutorKind.can_execute, h]
  · intro h
    simp [get_executor, defaultExecutors, List.find?_cons, ExecutorKind.can_execute, h]
  · intro body h
    simp [execute_job, h]

/-- Witness for executor_registry_resolution: a job of unknown type
"render" resolves to no executor and execute_job reports the
no-executor error, while a sleep job resolves to the sleep executor. -/
theorem executor_registry_resolution_witness :
    get_executor defaultExecutors
      { jobA with job_type := "render" } = none ∧
    execute_job okBody { jobA with job_type := "render" } =
      Except.error "No executor found for job type: render" ∧
    get_executor defaultExecutors jobA = some ExecutorKind.sleepExec := by
  have h := executor_registry_resolution { jobA with job_type := "render" }
  have h2 := executor_registry_resolution jobA
  have hnone : get_executor defaultExecutors { jobA with job_type := "render" } = none :=
    h.1.mpr (by decide)
  refine ⟨hnone, ?_, h2.2.2.1 (by decide)⟩
  have := h.2.2.2.2.2.2 okBody hnone
  simpa using this

theorem alistLookup_mem {α : Type} (k : String) (v : α) (l : List (String × α)) :
    alistLookup k l = some v → (k, v) ∈ l := by
  induction l with
  | nil =>
    intro h
    simp [alistLookup] at h
  | cons p rest ih =>
    intro h
    by_cases hp : p.1 = k
    · simp only [alistLookup, if_pos hp] at h
      have hpv : p = (k, v) := by
        cases p
        simp_all
      exact hpv ▸ List.mem_cons_self _ _
    · simp only [alistLookup, if_neg hp] at h
      exact List.mem_cons_of_mem _ (ih h)

theorem scheduler_tick_eq (s : ClusterState) (pick now : Nat) (w : WorkerInfo)
    (j : Job) (rest : List Job)
    (hq : s.job_queue ≠ [])
    (hsort : sortJobsByPriorityDesc s.job_queue = j :: rest)
    (hw : chosenWorker s pick = some w) :
    scheduler_tick s pick now =
      { s with
        job_queue := rest
        jobs := alistInsert (assignedJob j w now).job_id (assignedJob j w now) s.jobs
        workers := alistInsert w.worker_id
          { w with current_job := some (assignedJob j w now), status := "busy" }
          s.workers } := by
  have hne : s.job_queue.isEmpty = false := by
    cases hql : s.job_queue with
    | nil => exact absurd hql hq
    | cons a l => rfl
  simp only [scheduler_tick, hne, Bool.false_eq_true, if_false, hsort, hw]

/-- C1 counterexample: a state with two queued jobs and two available
workers, where min(queue length, available workers) = 2, yet a single
scheduler tick leaves one job queued and makes exactly one worker busy,
dispatching one job rather than two. -/
theorem scheduler_single_dispatch_cex :
    schedCexState.job_queue.length = 2 ∧
    (availableWorkers schedCexState).length = 2 ∧
    (scheduler_tick schedCexState 0 1).job_queue.length = 1 ∧
    ((scheduler_tick schedCexState 0 1).workers.filter
      (fun p => p.2.status == "busy")).length = 1 := by decide

/-- C2 counterexample: failing the worker that holds a job with
retry_count = max_retries = 3 leaves that job observable in the jobs map
with retry_count 4 and max_retries 3, violating retry_count ≤
max_retries. -/
theorem retry_bound_violation_cex :
    ((simulate_worker_failure exhState "w1").bind
      (fun t => alistLookup "jx" t.jobs)).map
        (fun j => (j.retry_count, j.max_retries)) = some (4, 3) ∧
    ((simulate_worker_failure exhState "w1").bind
      (fun t => alistLookup "jx" t.jobs)).map
        (fun j => decide (j.retry_count ≤ j.max_retries)) = some false := by decide

/-- C3 counterexample: the retry-exhaustion path marks the job FAILED but
never sets completed_at, so a terminal job with completed_at unset is
observable. -/
theorem exhaustion_completed_at_unset_cex :
    ((simulate_worker_failure exhState "w1").bind
      (fun t => alistLookup "jx" t.jobs)).map
        (fun j => (j.status, j.completed_at)) = some (JobStatus.failed, none) := by decide

/-- C5 counterexample: running the recovery action twice for the same
failure does not give the same cluster state as running it once; the
worker_recoveries and active_workers counters are incremented again. -/
theorem recover_twice_stats_cex :
    (recover_worker (recover_worker failedWorkerState "w1" 3) "w1" 3).stats ≠
      (recover_worker failedWorkerState "w1" 3).stats ∧
    (recover_worker (recover_worker failedWorkerState "w1" 3) "w1" 3).stats.worker_recoveries
      = 2 ∧
    (recover_worker failedWorkerState "w1" 3).stats.worker_recoveries = 1 ∧
    (recover_worker (recover_worker failedWorkerState "w1" 3) "w1" 3).stats.active_workers
      = 2 ∧
    (recover_worker failedWorkerState "w1" 3).stats.active_workers = 1 := by decide

/-- C6 counterexample: two generator emissions whose random draws coincide
produce the same job_id; after the second emission stats.total_jobs = 2
while the jobs mapping holds a single entry, because the dict insert
overwrote the first job. -/
theorem total_jobs_collision_cex :
    genJobFst.job_id = genJobSnd.job_id ∧
    (emit_job (emit_job emptyState genJobFst) genJobSnd).stats.total_jobs = 2 ∧
    (emit_job (emit_job emptyState genJobFst) genJobSnd).jobs.length = 1 := by decide

/-- C1 (amended): on a scheduler tick with a non-empty queue and at least
one available worker, the scheduler dispatches exactly one job — the head
of the sorted queue — rather than min(queue length, available workers)
jobs: the queue shrinks by exactly one, and the single assignment sets
worker.current_job to the job, worker.status to busy, job.status to
RUNNING, job.started_at to now, and job.worker_id to that worker's id. -/
theorem scheduler_tick_dispatches_exactly_one
    (s : ClusterState) (pick now : Nat) (w : WorkerInfo)
    (hq : s.job_queue ≠ [])
    (hw : chosenWorker s pick = some w) :
    ∃ j rest,
      sortJobsByPriorityDesc s.job_queue = j :: rest ∧
      (scheduler_tick s pick now).job_queue = rest ∧
      (scheduler_tick s pick now).job_queue.length + 1 = s.job_queue.length ∧
      alistLookup w.worker_id (scheduler_tick s pick now).workers =
        some { w with current_job := some (assignedJob j w now), status := "busy" } ∧
      alistLookup j.job_id (scheduler_tick s pick now).jobs =
        some (assignedJob j w now) ∧
      (assignedJob j w now).status = JobStatus.running ∧
      (assignedJob j w now).started_at = some now ∧
      (assignedJob j w now).worker_id = some w.worker_id := by
  cases hsort : sortJobsByPriorityDesc s.job_queue with
  | nil =>
    exfalso
    have hlen := sortJobs_length s.job_queue
    rw [hsort] at hlen
    cases hql : s.job_queue with
    | nil => exact hq hql
    | cons a l =>
      rw [hql] at hlen
      simp at hlen
  | cons j rest =>
    have hst := scheduler_tick_eq s pick now w j rest hq hsort hw
    refine ⟨j, rest, rfl, ?_, ?_, ?_, ?_, rfl, rfl, rfl⟩
    · rw [hst]
    · rw [hst]
      have hlen := sortJobs_length s.job_queue
      rw [hsort] at hlen
      simpa using hlen
    · rw [hst]
      exact alistLookup_insert_self _ _ _
    · rw [hst]
      exact alistLookup_insert_self _ _ _

/-- Witness for scheduler_tick_dispatches_exactly_one at the two-worker,
two-job state: the tick removes exactly one job from the queue. -/
theorem scheduler_tick_dispatches_exactly_one_witness :
    (scheduler_tick schedCexState 0 1).job_queue.length + 1 =
      schedCexState.job_queue.length := by
  obtain ⟨j, rest, hsort, hqueue, hlen, hrestf⟩ :=
    scheduler_tick_dispatches_exactly_one schedCexState 0 1 (onlineWorker "w1")
      (by decide) (by decide)
  exact hlen

/-- C7: on a scheduler tick with a non-empty queue and at least one
available worker, the dispatched job is the head of the queue
stable-sorted by priority descending, so its priority is ≥ the priority
of every job remaining in the queue at that tick; the sorted queue is a
permutation of the original and jobs of equal priority keep their
original relative order. -/
theorem scheduler_dispatches_highest_priority
    (s : ClusterState) (pick now : Nat) (w : WorkerInfo)
    (hq : s.job_queue ≠ [])
    (hw : chosenWorker s pick = some w) :
    ∃ j rest,
      sortJobsByPriorityDesc s.job_queue = j :: rest ∧
      (scheduler_tick s pick now).job_queue = rest ∧
      (∀ k ∈ rest, k.priority.value ≤ j.priority.value) ∧
      List.Perm (j :: rest) s.job_queue ∧
      (∀ v : Nat, (j :: rest).filter (fun q => q.priority.value == v) =
        s.job_queue.filter (fun q => q.priority.value == v)) := by
  cases hsort : sortJobsByPriorityDesc s.job_queue with
  | nil =>
    exfalso
    have hlen := sortJobs_length s.job_queue
    rw [hsort] at hlen
    cases hql : s.job_queue with
    | nil => exact hq hql
    | cons a l =>
      rw [hql] at hlen
      simp at hlen
  | cons j rest =>
    have hst := scheduler_tick_eq s pick now w j rest hq hsort hw
    refine ⟨j, rest, rfl, ?_, ?_, ?_, ?_⟩
    · rw [hst]
    · have hp := sortJobs_pairwise s.job_queue
      rw [hsort] at hp
      exact (List.pairwise_cons.mp hp).1
    · have := sortJobs_perm s.job_queue
      rw [hsort] at this
      exact this
    · intro v
      have := sortJobs_filter_stable s.job_queue v
      rw [hsort] at this
      exact this

/-- Witness for scheduler_dispatches_highest_priority: at the concrete
state the HIGH-priority job is dispatched and only the NORMAL-priority
job remains queued. -/
theorem scheduler_dispatches_highest_priority_witness :
    (scheduler_tick schedCexState 0 1).job_queue = [jobA] := by
  obtain ⟨j, rest, hsort, hqueue, hbound, hperm, hstable⟩ :=
    scheduler_dispatches_highest_priority schedCexState 0 1 (onlineWorker "w1")
      (by decide) (by decide)
  have hs : sortJobsByPriorityDesc schedCexState.job_queue = [jobB, jobA] := by decide
  rw [hs] at hsort
  injection hsort with h1 h2
  rw [hqueue, ← h2]

/-- C2 (amended): the bound retry_count ≤ max_retries is not an invariant:
the failure handler increments retry_count before the check, so the
retry-exhaustion path leaves the FAILED job at retry_count =
max_retries + 1.  What the failure handler preserves is the weaker bound
retry_count ≤ max_retries + 1 for all jobs in the mapping, while every
job in the queue (in particular every requeued job) still satisfies
retry_count ≤ max_retries. -/
theorem retry_count_le_max_retries_succ
    (s s' : ClusterState) (wid : String)
    (hrun : simulate_worker_failure s wid = some s')
    (hjobs : ∀ p ∈ s.jobs, (Prod.snd p).retry_count ≤ (Prod.snd p).max_retries + 1)
    (hheld : ∀ q ∈ s.workers, ∀ j ∈ (Prod.snd q).current_job,
      j.retry_count ≤ j.max_retries)
    (hqueue : ∀ j ∈ s.job_queue, j.retry_count ≤ j.max_retries) :
    (∀ p ∈ s'.jobs, (Prod.snd p).retry_count ≤ (Prod.snd p).max_retries + 1) ∧
    (∀ j ∈ s'.job_queue, j.retry_count ≤ j.max_retries) := by
  cases hworker : alistLookup wid s.workers with
  | none => simp [simulate_worker_failure, hworker] at hrun
  | some worker =>
    have hmem := alistLookup_mem wid worker s.workers hworker
    cases hcj : worker.current_job with
    | none =>
      simp only [simulate_worker_failure, hworker, hcj, Option.some.injEq] at hrun
      subst hrun
      exact ⟨hjobs, hqueue⟩
    | some job =>
      have hjb : job.retry_count ≤ job.max_retries :=
        hheld (wid, worker) hmem job (Option.mem_def.mpr hcj)
      simp only [simulate_worker_failure, hworker, hcj] at hrun
      by_cases hret : (requeuedJob job).retry_count ≤ (requeuedJob job).max_retries
      · rw [if_pos hret, Option.some.injEq] at hrun
        subst hrun
        constructor
        · intro p hp
          rcases mem_alistInsert _ _ _ p hp with hpe | hpe
          · subst hpe
            simp only [requeuedJob]
            omega
          · exact hjobs p hpe
        · intro q hq
          rcases List.mem_append.mp hq with hq | hq
          · exact hqueue q hq
          · rw [List.mem_singleton] at hq
            subst hq
            exact hret
      · rw [if_neg hret, Option.some.injEq] at hrun
        subst hrun
        constructor
        · intro p hp
          rcases mem_alistInsert _ _ _ p hp with hpe | hpe
          · subst hpe
            simp only [exhaustedJob, requeuedJob]
            omega
          · exact hjobs p hpe
        · exact hqueue

/-- The cluster state after the retry-exhaustion failure of w1. -/
def exhPost : ClusterState := (simulate_worker_failure exhState "w1").getD emptyState

/-- Witness for retry_count_le_max_retries_succ: applied at the concrete
exhaustion state, the failed job stays within the weakened bound. -/
theorem retry_count_le_max_retries_succ_witness :
    (exhaustedJob exhJob).retry_count ≤ (exhaustedJob exhJob).max_retries + 1 := by
  have h := retry_count_le_max_retries_succ exhState exhPost "w1" rfl
    (by decide) (by decide) (by decide)
  exact h.1 ("jx", exhaustedJob exhJob) (by decide)

/-- C3 (amended): on the executor-runner path a job made terminal gets
completed_at = now and the executing worker's reference is cleared (no
other worker entry is touched); on the worker-failure path the failed
worker's reference is likewise cleared, but the retry-exhaustion branch
marks the job FAILED without setting completed_at. -/
theorem terminal_job_worker_cleared
    (s : ClusterState) (wid : String) (now : Nat)
    (body : ExecutorKind → Job → Except String String)
    (w : WorkerInfo) (j : Job)
    (hw : alistLookup wid s.workers = some w)
    (hj : w.current_job = some j)
    (hrun : j.status = JobStatus.running) :
    (∃ j', alistLookup j.job_id (executor_tick_worker body s wid now).jobs = some j' ∧
       (j'.status = JobStatus.completed ∨ j'.status = JobStatus.failed) ∧
       j'.completed_at = some now) ∧
    alistLookup wid (executor_tick_worker body s wid now).workers =
      some { w with current_job := none, status := "online" } ∧
    (∀ wid2, wid2 ≠ wid →
      alistLookup wid2 (executor_tick_worker body s wid now).workers =
        alistLookup wid2 s.workers) ∧
    (∀ t, simulate_worker_failure s wid = some t →
       alistLookup wid t.workers =
         some { w with status := "failed", current_job := none } ∧
       (j.retry_count = j.max_retries →
         alistLookup j.job_id t.jobs = some (exhaustedJob j) ∧
         (exhaustedJob j).status = JobStatus.failed ∧
         (exhaustedJob j).completed_at = j.completed_at)) := by
  obtain ⟨j', st', hstat, htime, hstep⟩ :
      ∃ j' st', (j'.status = JobStatus.completed ∨ j'.status = JobStatus.failed) ∧
        j'.completed_at = some now ∧
        executor_tick_worker body s wid now =
          { s with
            jobs := alistInsert j.job_id j' s.jobs
            workers := alistInsert wid
              { w with current_job := none, status := "online" } s.workers
            stats := st' } := by
    cases hexec : execute_job body j with
    | ok res =>
      refine ⟨completedJob j res now,
        { s.stats with completed_jobs := s.stats.completed_jobs + 1 },
        Or.inl rfl, rfl, ?_⟩
      simp [executor_tick_worker, hw, hj, hrun, hexec]
    | error msg =>
      refine ⟨failedJob j msg now,
        { s.stats with failed_jobs := s.stats.failed_jobs + 1 },
        Or.inr rfl, rfl, ?_⟩
      simp [executor_tick_worker, hw, hj, hrun, hexec]
  refine ⟨⟨j', ?_, hstat, htime⟩, ?_, ?_, ?_⟩
  · rw [hstep]
    exact alistLookup_insert_self _ _ _
  · rw [hstep]
    exact alistLookup_insert_self _ _ _
  · intro wid2 hne
    rw [hstep]
    exact alistLookup_insert_ne _ _ _ _ hne
  · intro t ht
    simp only [simulate_worker_failure, hw, hj] at ht
    by_cases hret : (requeuedJob j).retry_count ≤ (requeuedJob j).max_retries
    · rw [if_pos hret, Option.some.injEq] at ht
      subst ht
      refine ⟨alistLookup_insert_self _ _ _, ?_⟩
      intro heq
      exfalso
      simp only [requeuedJob] at hret
      omega
    · rw [if_neg hret, Option.some.injEq] at ht
      subst ht
      refine ⟨alistLookup_insert_self _ _ _, ?_⟩
      intro heq
      refine ⟨?_, rfl, rfl⟩
      have hid : (exhaustedJob j).job_id = j.job_id := rfl
      rw [← hid]
      exact alistLookup_insert_self _ _ _

/-- Witness for terminal_job_worker_cleared: executing the running job on
w1 clears the worker and puts it back online. -/
theorem terminal_job_worker_cleared_witness :
    alistLookup "w1" (executor_tick_worker okBody runState "w1" 9).workers =
      some { runWorker with current_job := none, status := "online" } := by
  have h := terminal_job_worker_cleared runState "w1" 9 okBody runWorker runJob
    (by decide) (by decide) (by decide)
  exact h.2.1

/-- C4: when the worker holding a job with retry_count = k fails, the
handler marks the worker failed and clears it; if k < max_retries exactly
one copy of the job is appended to the queue, PENDING, with retry_count
k+1, worker_id and started_at cleared, and failed_jobs unchanged; if
k = max_retries nothing is enqueued, the job becomes FAILED with the
fixed error message, and failed_jobs is incremented exactly once. -/
theorem worker_failure_requeue_accounting
    (s s' : ClusterState) (wid : String) (w : WorkerInfo) (j : Job)
    (hw : alistLookup wid s.workers = some w)
    (hj : w.current_job = some j)
    (hrun : simulate_worker_failure s wid = some s') :
    alistLookup wid s'.workers =
      some { w with status := "failed", current_job := none } ∧
    (j.retry_count < j.max_retries →
       s'.job_queue = s.job_queue ++ [requeuedJob j] ∧
       (requeuedJob j).retry_count = j.retry_count + 1 ∧
       (requeuedJob j).status = JobStatus.pending ∧
       (requeuedJob j).worker_id = none ∧
       (requeuedJob j).started_at = none ∧
       s'.stats.failed_jobs = s.stats.failed_jobs) ∧
    (j.retry_count = j.max_retries →
       s'.job_queue = s.job_queue ∧
       s'.stats.failed_jobs = s.stats.failed_jobs + 1 ∧
       alistLookup j.job_id s'.jobs = some (exhaustedJob j) ∧
       (exhaustedJob j).status = JobStatus.failed ∧
       (exhaustedJob j).error_message =
         some "Max retries exceeded due to worker failures") := by
  simp only [simulate_worker_failure, hw, hj] at hrun
  by_cases hret : (requeuedJob j).retry_count ≤ (requeuedJob j).max_retries
  · rw [if_pos hret, Option.some.injEq] at hrun
    subst hrun
    refine ⟨alistLookup_insert_self _ _ _, ?_, ?_⟩
    · intro hlt
      exact ⟨rfl, rfl, rfl, rfl, rfl, rfl⟩
    · intro heq
      exfalso
      simp only [requeuedJob] at hret
      omega
  · rw [if_neg hret, Option.some.injEq] at hrun
    subst hrun
    refine ⟨alistLookup_insert_self _ _ _, ?_, ?_⟩
    · intro hlt
      exfalso
      simp only [requeuedJob] at hret
      omega
    · intro heq
      refine ⟨rfl, rfl, ?_, rfl, rfl⟩
      have hid : (exhaustedJob j).job_id = j.job_id := rfl
      rw [← hid]
      exact alistLookup_insert_self _ _ _

/-- A RUNNING job on its first attempt, held by worker w1, for the
requeue-accounting witness. -/
def reqJob : Job :=
  { job_id := "jq", job_type := "compute", priority := JobPriority.normal,
    status := JobStatus.running, created_at := 0, started_at := some 2,
    worker_id := some "w1" }

/-- The busy worker holding reqJob. -/
def reqWorker : WorkerInfo :=
  { worker_id := "w1", status := "busy", current_job := some reqJob }

/-- Cluster state in which worker w1 is busy with reqJob. -/
def reqState : ClusterState :=
  { workers := [("w1", reqWorker)], jobs := [("jq", reqJob)] }

/-- The cluster state after the failure of w1 while it holds reqJob. -/
def reqPost : ClusterState := (simulate_worker_failure reqState "w1").getD emptyState

/-- Witness for worker_failure_requeue_accounting: the first failure of a
fresh job appends exactly one requeued copy. -/
theorem worker_failure_requeue_accounting_witness :
    reqPost.job_queue = reqState.job_queue ++ [requeuedJob reqJob] := by
  have h := worker_failure_requeue_accounting reqState reqPost "w1" reqWorker reqJob
    (by decide) (by decide) rfl
  exact (h.2.1 (by decide)).1

/-- Unfolding of recover_worker when the worker id is present. -/
theorem recover_worker_eq (s : ClusterState) (wid : String) (now : Nat) (w : WorkerInfo)
    (hw : alistLookup wid s.workers = some w) :
    recover_worker s wid now =
      { s with
        workers := alistInsert wid
          { w with status := "online", last_heartbeat := now } s.workers
        stats := { s.stats with
          worker_recoveries := s.stats.worker_recoveries + 1
          active_workers := s.stats.active_workers + 1 } } := by
  simp only [recover_worker, hw]

/-- C5 (amended): invoking the recovery action twice for the same failure
yields the same worker record as invoking it once (re-recovery rewrites
status online and the same heartbeat), but the cluster state is not the
same: worker_recoveries and active_workers are incremented again, one
more than after a single invocation, because the action is not guarded by
the FAILED status. -/
theorem recover_twice_worker_state_idempotent
    (s : ClusterState) (wid : String) (now : Nat) (w : WorkerInfo)
    (hw : alistLookup wid s.workers = some w) :
    alistLookup wid (recover_worker (recover_worker s wid now) wid now).workers =
      alistLookup wid (recover_worker s wid now).workers ∧
    (recover_worker (recover_worker s wid now) wid now).stats.worker_recoveries =
      (recover_worker s wid now).stats.worker_recoveries + 1 ∧
    (recover_worker (recover_worker s wid now) wid now).stats.active_workers =
      (recover_worker s wid now).stats.active_workers + 1 := by
  have h1 := recover_worker_eq s wid now w hw
  have hw2 : alistLookup wid (recover_worker s wid now).workers =
      some { w with status := "online", last_heartbeat := now } := by
    rw [h1]
    exact alistLookup_insert_self _ _ _
  have h2 := recover_worker_eq (recover_worker s wid now) wid now _ hw2
  refine ⟨?_, ?_, ?_⟩
  · rw [h2, hw2]
    exact alistLookup_insert_self _ _ _
  · rw [h2]
  · rw [h2]

/-- Witness for recover_twice_worker_state_idempotent at the concrete
failed worker: the recovery counter after two invocations is one higher
than after one. -/
theorem recover_twice_worker_state_idempotent_witness :
    (recover_worker (recover_worker failedWorkerState "w1" 3) "w1" 3).stats.worker_recoveries
      = (recover_worker failedWorkerState "w1" 3).stats.worker_recoveries + 1 := by
  have h := recover_twice_worker_state_idempotent failedWorkerState "w1" 3
    { worker_id := "w1", status := "failed" } (by decide)
  exact h.2.1

/-- C6 (amended): each generator emission increments stats.total_jobs by
one, but the jobs mapping only grows when the generated job_id is not
already a key, so the invariant stats.total_jobs = |jobs| is preserved by
an emission exactly when the fresh id does not collide with an existing
one — which generate_job_id, a bounded random draw with no uniqueness
check, does not guarantee. -/
theorem emit_job_total_jobs_iff_fresh (s : ClusterState) (job : Job)
    (hinv : s.stats.total_jobs = s.jobs.length) :
    (emit_job s job).stats.total_jobs = s.stats.total_jobs + 1 ∧
    ((emit_job s job).stats.total_jobs = (emit_job s job).jobs.length ↔
      alistLookup job.job_id s.jobs = none) := by
  refine ⟨rfl, ?_⟩
  cases hlk : alistLookup job.job_id s.jobs with
  | none =>
    simp [emit_job, alistInsert_length_of_none _ _ _ hlk, hinv]
  | some x =>
    have hlen : (alistInsert job.job_id job s.jobs).length = s.jobs.length :=
      alistInsert_length_of_some _ _ _ _ hlk
    simp only [emit_job, hlen, hinv]
    constructor
    · intro h
      omega
    · intro h
      simp at h
  
/-- Witness for emit_job_total_jobs_iff_fresh: emitting a job with a
fresh id into the empty state keeps total_jobs equal to the size of the
jobs mapping. -/
theorem emit_job_total_jobs_iff_fresh_witness :
    (emit_job emptyState genJobFst).stats.total_jobs =
      (emit_job emptyState genJobFst).jobs.length :=
  ((emit_job_total_jobs_iff_fresh emptyState genJobFst (by decide)).2).mpr (by decide)
